import Mathlib

/-!
Shallow embedding of the RAMCloud packet-driver layer: the `Driver` contract
(Driver.h), the `Received` packet envelope and its ownership protocol, and the
DPDK backend (`DpdkDriver`): its constructor-derived transmit-queue sizing,
`sendPacket`, `receivePackets`, `release`, `getMaxPacketSize` and
`getTransmitQueueSpace`.  Machine bytes are modelled as `Nat`, packet buffers
as `List Nat`, the in-process loopback ring and the hardware transmit ring as
lists of frames, and the buffer-pool bookkeeping counter `packetBufsUtilized`
as an `Int` (it is a signed int in the code, and its sign carries meaning).
-/

namespace RAMCloud

/-- Bytes are modelled as natural numbers (values of `uint8_t` / `char`). -/
abbrev Byte := Nat

/-- Model of `MacAddress`: a fixed array of six bytes (`uint8_t address[6]`),
matching the 6-byte `rte_memcpy` calls in `DpdkDriver::sendPacket`. -/
structure MacAddress where
  b0 : Byte
  b1 : Byte
  b2 : Byte
  b3 : Byte
  b4 : Byte
  b5 : Byte
deriving DecidableEq

/-- The six bytes of a `MacAddress`, in order. -/
def MacAddress.bytes (m : MacAddress) : List Byte :=
  [m.b0, m.b1, m.b2, m.b3, m.b4, m.b5]

/-- Modelled from the spec: `NetUtil::EthPayloadType::FAST`, the link-layer
type tag identifying this protocol's traffic (NetUtil.h is not in src/).
Only its size (two bytes on the wire) matters to the claims. -/
def fastEtherType : Nat := 32769

/-- Size in bytes of `NetUtil::EthernetHeader`: destination MAC (6),
source MAC (6), etherType (2). -/
def ethernetHeaderSize : Nat := 14

/-- The wire bytes of the Ethernet header written by `DpdkDriver::sendPacket`:
destination address, then source address, then the FAST etherType in
network byte order. -/
def ethHeaderBytes (dest src : MacAddress) : List Byte :=
  dest.bytes ++ src.bytes ++ [fastEtherType / 256, fastEtherType % 256]

/-- Modelled from the spec: the Bandwidth/Queue Estimator (`QueueEstimator`,
whose implementation file is not in src/).  State per spec section 4.2:
configured bandwidth (bytes per time unit), the backlog at the last
baseline update, and the time of that update. -/
structure QueueEstimator where
  bandwidth : Int
  queueSize : Int
  lastTime : Int
deriving DecidableEq

/-- Modelled from the spec: `getQueueSize(now)` computes backlog minus
`(now - lastTime) * bandwidth`, floored at zero, and updates the internal
time/backlog baseline.  Returns the size together with the updated state. -/
def QueueEstimator.getQueueSize (e : QueueEstimator) (now : Int) :
    Int × QueueEstimator :=
  let sz := max 0 (e.queueSize - (now - e.lastTime) * e.bandwidth)
  (sz, { e with queueSize := sz, lastTime := now })

/-- Modelled from the spec: `packetQueued(bytes, now)` appends to the logical
backlog after bringing the baseline up to `now`. -/
def QueueEstimator.packetQueued (e : QueueEstimator) (bytes : Int)
    (now : Int) : QueueEstimator :=
  let e2 := (e.getQueueSize now).2
  { e2 with queueSize := e2.queueSize + bytes }

/-- A DPDK packet buffer (`struct rte_mbuf`), reduced to its data bytes. -/
structure Mbuf where
  data : List Byte
deriving DecidableEq

/-- The DpdkDriver state the claims touch: the software loopback ring, the
frames submitted to the hardware transmit ring, the queue estimator, and the
`packetBufsUtilized` bookkeeping counter (a signed int in the code). -/
structure DpdkState where
  loopbackRing : List Mbuf
  txRing : List Mbuf
  queueEstimator : QueueEstimator
  packetBufsUtilized : Int
deriving DecidableEq

/-- `DpdkDriver::getMaxPacketSize()`: `MAX_PAYLOAD_SIZE -
sizeof(NetUtil::EthernetHeader)`.  `MAX_PAYLOAD_SIZE` is a compile-time
constant from DpdkDriver.h (not in src/), so it is a parameter here. -/
def DpdkDriver.getMaxPacketSize (maxPayloadSize : Nat) : Nat :=
  maxPayloadSize - ethernetHeaderSize

/-- `Driver::MAX_DRAIN_TIME`: maximum tolerated transmit-queue drain time,
in nanoseconds (Driver.h). -/
def Driver.MAX_DRAIN_TIME : Nat := 2000

/-- The `maxTransmitQueueSize` computation in the `DpdkDriver` constructor:
`(uint32_t) (bandwidthGbps * MAX_DRAIN_TIME / 8.0)`, raised to
`2 * getMaxPacketSize()` when below that floor.  `MAX_DRAIN_TIME` is
divisible by 8, so the `double` arithmetic of the source is exact and
`Nat` division models it faithfully. -/
def DpdkDriver.computeMaxTransmitQueueSize (bandwidthGbps maxPacketSize : Nat) :
    Nat :=
  let q := bandwidthGbps * Driver.MAX_DRAIN_TIME / 8
  if q < 2 * maxPacketSize then 2 * maxPacketSize else q

/-- `DpdkDriver::getTransmitQueueSpace(currentTime)`:
`maxTransmitQueueSize - queueEstimator.getQueueSize(currentTime)`,
as a signed result. -/
def DpdkDriver.getTransmitQueueSpace (maxTransmitQueueSize : Nat)
    (e : QueueEstimator) (currentTime : Int) : Int :=
  (maxTransmitQueueSize : Int) - (e.getQueueSize currentTime).1

/-- `Driver::getTransmitQueueSpace`, the default a backend inherits when it
does not override it (Driver.h): a large constant, independent of the time
argument (no throttling). -/
def Driver.defaultGetTransmitQueueSpace (_currentTime : Int) : Int :=
  10000000

/-- `MAX_PACKETS_AT_ONCE` from `DpdkDriver::receivePackets`. -/
def MAX_PACKETS_AT_ONCE : Nat := 32

/-- `DpdkDriver::receivePackets(maxPackets, receivedPackets)`.  `nicPkts` is
the batch the `rte_eth_rx_burst` call returned from the hardware receive ring.
Mirroring the source: `maxPackets` is capped at `MAX_PACKETS_AT_ONCE` into a
local that is never read again; the loopback dequeue count is clipped so the
combined total stays within `MAX_PACKETS_AT_ONCE`; each packet yields a
Received whose sender address is read at byte offset 6 (the source MAC),
whose length is the frame length minus the Ethernet header, and whose payload
is the frame with the Ethernet header stripped; results are appended to
`receivedPackets` in arrival order (NIC burst first, then loopback ring
order); one pool buffer is consumed per packet (`packetBufsUtilized++`). -/
def DpdkDriver.receivePackets (maxPackets : Nat) (nicPkts : List Mbuf)
    (st : DpdkState) (receivedPackets : List (List Byte × Nat × List Byte)) :
    List (List Byte × Nat × List Byte) × DpdkState :=
  let _cappedMaxPackets := min maxPackets MAX_PACKETS_AT_ONCE
  let incomingPkts := nicPkts.length
  let loopbackPkts :=
    if MAX_PACKETS_AT_ONCE < incomingPkts + st.loopbackRing.length then
      MAX_PACKETS_AT_ONCE - incomingPkts
    else
      st.loopbackRing.length
  let pkts := nicPkts ++ st.loopbackRing.take loopbackPkts
  (receivedPackets ++ pkts.map (fun m =>
      ((m.data.drop 6).take 6,
       m.data.length - ethernetHeaderSize,
       m.data.drop ethernetHeaderSize)),
   { st with
      loopbackRing := st.loopbackRing.drop loopbackPkts,
      packetBufsUtilized := st.packetBufsUtilized + (pkts.length : Int) })

/-- Outcome of one `DpdkDriver::sendPacket` call: the resulting driver state,
the log message if the packet was dropped, whether a frame was submitted, and
whether the `assert(totalLength <= MAX_PAYLOAD_SIZE)` in the source holds. -/
structure SendOutcome where
  st : DpdkState
  logged : Option String
  sent : Bool
  assertOk : Bool
deriving DecidableEq

/-- `DpdkDriver::sendPacket(addr, header, headerLen, payload)`.  The payload
iterator is modelled as its list of contiguous segments; `allocOk` and
`appendOk` model whether `rte_pktmbuf_alloc` and `rte_pktmbuf_append`
succeed (they depend on pool/mbuf capacity outside this model).  Mirroring
the source: total length is header plus payload bytes; on allocation or
append failure the driver logs and returns having sent nothing; otherwise
the frame is the Ethernet header, then the copied caller header, then the
payload segments gathered in order, enqueued on the loopback ring when the
destination MAC equals the local MAC and on the hardware transmit ring
otherwise; finally `packetQueued(totalLength, now)` is recorded. -/
def DpdkDriver.sendPacket (maxPayloadSize : Nat) (localMac destMac : MacAddress)
    (header : List Byte) (payload : List (List Byte))
    (allocOk appendOk : Bool) (now : Int) (st : DpdkState) : SendOutcome :=
  let totalLength := header.length + (payload.map List.length).sum
  let ok := decide (totalLength ≤ maxPayloadSize)
  if allocOk = false then
    { st := st,
      logged := some "Failed to allocate a packet buffer; dropping packet",
      sent := false, assertOk := ok }
  else if appendOk = false then
    { st := st,
      logged := some "rte_pktmbuf_append call failed; dropping packet",
      sent := false, assertOk := ok }
  else
    let frame : Mbuf := { data := ethHeaderBytes destMac localMac ++ header ++ payload.flatten }
    let st1 :=
      if destMac = localMac then
        { st with loopbackRing := st.loopbackRing ++ [frame] }
      else
        { st with txRing := st.txRing ++ [frame] }
    { st := { st1 with
        queueEstimator := st1.queueEstimator.packetQueued (totalLength : Int) now },
      logged := none, sent := true, assertOk := ok }

/-- `DpdkDriver::release(payload)` acting on the `packetBufsUtilized`
counter: the counter is decremented (`packetBufsUtilized--`). -/
def DpdkDriver.release (packetBufsUtilized : Int) : Int :=
  packetBufsUtilized - 1

/-- The `assert(packetBufsUtilized >= 0)` that follows the decrement in
`DpdkDriver::release`: true iff the decremented counter is non-negative. -/
def DpdkDriver.releaseAssertHolds (packetBufsUtilized : Int) : Bool :=
  decide (0 ≤ DpdkDriver.release packetBufsUtilized)

/-- `Driver::Received` (Driver.h): sender address, owning driver, length, and
the payload pointer.  Pointers are modelled as optional identifiers, with
`none` standing for NULL. -/
structure Received where
  sender : Option Nat
  driver : Option Nat
  len : Nat
  payload : Option Nat
deriving DecidableEq

/-- The move constructor `Received(Received&& other)` (Driver.h): returns the
newly constructed envelope (taking the source's sender, driver, len and
payload) paired with the source as the constructor body leaves it
(sender, driver and payload reset to NULL, len to 0). -/
def Received.moveFrom (other : Received) : Received × Received :=
  ({ sender := other.sender, driver := other.driver,
     len := other.len, payload := other.payload },
   { sender := none, driver := none, len := 0, payload := none })

/-- Modelled from the spec: `Driver::Received::steal` (defined in Driver.cc,
which is not in src/).  Per the Driver.h documentation, the caller takes over
responsibility for the packet buffer: steal yields the payload pointer and
the length, and clears the envelope's `payload`. -/
def Received.steal (r : Received) : Option Nat × Nat × Received :=
  (r.payload, r.len, { r with payload := none })

/-- Modelled from the spec: `Driver::Received::~Received` (defined in
Driver.cc, which is not in src/).  Per the Driver.h documentation of the
`payload` field, destruction returns the storage to the driver iff `payload`
is non-NULL; the destructor is modelled by the list of payloads it passes to
the driver's release. -/
def Received.destroyReleases (r : Received) : List Nat :=
  match r.payload with
  | some p => [p]
  | none => []

/-- Error kinds `Driver::newAddress` is documented to throw (Driver.h):
`NoSuchKeyException` when a required service-locator option is missing,
`BadValueException` when an option is present but malformed. -/
inductive LocatorErrorKind where
  | noSuchKey
  | badValue
deriving DecidableEq

/-- Modelled from the spec: `Driver::newAddress(serviceLocator)` is pure
virtual in Driver.h and no concrete implementation is in src/.  Per the
spec, the backend looks up its required locator option and parses it:
a missing option fails with the NoSuchKeyException kind, a present but
malformed option fails with the BadValueException kind.  The locator is
modelled as its key/value options and the backend's value parser as a
function returning `none` on malformed input. -/
def Driver.newAddress (options : List (String × String)) (requiredKey : String)
    (parseValue : String → Option Nat) : Except LocatorErrorKind Nat :=
  match options.lookup requiredKey with
  | none => Except.error LocatorErrorKind.noSuchKey
  | some v =>
    match parseValue v with
    | none => Except.error LocatorErrorKind.badValue
    | some a => Except.ok a

/-- Applying a sequence of `packetQueued(bytes, time)` calls to an estimator,
in order. -/
def QueueEstimator.applyTrace (e : QueueEstimator) (tr : List (Int × Int)) :
    QueueEstimator :=
  tr.foldl (fun acc p => acc.packetQueued p.1 p.2) e

/-- The times of a `packetQueued` trace are non-decreasing, starting no
earlier than the given baseline time. -/
def chronological : Int → List (Int × Int) → Prop
  | _, [] => True
  | t0, p :: rest => t0 ≤ p.2 ∧ chronological p.2 rest

/-- The time of the last call in a trace (the baseline time for an empty
trace). -/
def lastQueuedTime : Int → List (Int × Int) → Int
  | t0, [] => t0
  | _, p :: rest => lastQueuedTime p.2 rest

/-! Helper lemmas shared by the claim theorems. -/

/-- Unfolding lemma: the size an estimator reports is the decayed backlog,
floored at zero. -/
theorem QueueEstimator.getQueueSize_fst (e : QueueEstimator) (now : Int) :
    (e.getQueueSize now).1
      = max 0 (e.queueSize - (now - e.lastTime) * e.bandwidth) := rfl

/-- The reported queue size is never negative. -/
theorem QueueEstimator.getQueueSize_nonneg (e : QueueEstimator) (now : Int) :
    0 ≤ (e.getQueueSize now).1 := le_max_left 0 _

/-- Unfolding lemma: `packetQueued` adds the queued bytes onto the decayed
backlog. -/
theorem QueueEstimator.packetQueued_queueSize (e : QueueEstimator)
    (b now : Int) :
    (e.packetQueued b now).queueSize = (e.getQueueSize now).1 + b := rfl

/-- With a non-negative bandwidth, letting more time pass can only shrink
the reported queue size. -/
theorem QueueEstimator.getQueueSize_anti (e : QueueEstimator) (t1 t2 : Int)
    (hbw : 0 ≤ e.bandwidth) (_h1 : e.lastTime ≤ t1) (h12 : t1 ≤ t2) :
    (e.getQueueSize t2).1 ≤ (e.getQueueSize t1).1 := by
  rw [QueueEstimator.getQueueSize_fst, QueueEstimator.getQueueSize_fst]
  have hm : (t1 - e.lastTime) * e.bandwidth ≤ (t2 - e.lastTime) * e.bandwidth :=
    mul_le_mul_of_nonneg_right (by linarith) hbw
  exact max_le_max le_rfl (by linarith)

/-- The reported queue size never exceeds the stored backlog once time has
reached the baseline. -/
theorem QueueEstimator.getQueueSize_le_queueSize (e : QueueEstimator)
    (now : Int) (hq : 0 ≤ e.queueSize) (hbw : 0 ≤ e.bandwidth)
    (ht : e.lastTime ≤ now) :
    (e.getQueueSize now).1 ≤ e.queueSize := by
  rw [QueueEstimator.getQueueSize_fst]
  have hd : 0 ≤ (now - e.lastTime) * e.bandwidth :=
    mul_nonneg (by linarith) hbw
  exact max_le hq (by linarith)

/-- Invariants of a chronological `packetQueued` trace: bandwidth is
preserved, the backlog stays non-negative, the backlog grows by at most the
bytes queued, and the baseline time ends at the trace's last call time. -/
theorem QueueEstimator.applyTrace_bound (tr : List (Int × Int)) :
    ∀ e : QueueEstimator, 0 ≤ e.bandwidth → 0 ≤ e.queueSize →
    chronological e.lastTime tr → (∀ p ∈ tr, 0 ≤ p.1) →
    (e.applyTrace tr).bandwidth = e.bandwidth
    ∧ 0 ≤ (e.applyTrace tr).queueSize
    ∧ (e.applyTrace tr).queueSize ≤ e.queueSize + (tr.map Prod.fst).sum
    ∧ (e.applyTrace tr).lastTime = lastQueuedTime e.lastTime tr := by
  induction tr with
  | nil =>
    intro e hbw hq _ _
    exact ⟨rfl, hq, by simp [QueueEstimator.applyTrace, lastQueuedTime], rfl⟩
  | cons p rest ih =>
    intro e hbw hq hchron hbytes
    obtain ⟨hle, hchron2⟩ := hchron
    have hb : 0 ≤ p.1 := hbytes p (List.mem_cons_self _ _)
    have happly : e.applyTrace (p :: rest)
        = (e.packetQueued p.1 p.2).applyTrace rest := rfl
    have hq2 : 0 ≤ (e.packetQueued p.1 p.2).queueSize := by
      rw [QueueEstimator.packetQueued_queueSize]
      have := QueueEstimator.getQueueSize_nonneg e p.2
      linarith
    have hbw2 : 0 ≤ (e.packetQueued p.1 p.2).bandwidth := hbw
    have hlt : (e.packetQueued p.1 p.2).lastTime = p.2 := rfl
    have hchron2' : chronological (e.packetQueued p.1 p.2).lastTime rest := by
      rw [hlt]; exact hchron2
    obtain ⟨ihbw, ihq, ihbound, ihlast⟩ :=
      ih (e.packetQueued p.1 p.2) hbw2 hq2 hchron2'
        (fun q hq' => hbytes q (List.mem_cons_of_mem _ hq'))
    refine ⟨?_, ?_, ?_, ?_⟩
    · rw [happly, ihbw]; rfl
    · rw [happly]; exact ihq
    · rw [happly]
      have hdecay : (e.getQueueSize p.2).1 ≤ e.queueSize :=
        QueueEstimator.getQueueSize_le_queueSize e p.2 hq hbw hle
      have hmid : ((e.packetQueued p.1 p.2).applyTrace rest).queueSize
          ≤ (e.getQueueSize p.2).1 + p.1 + (rest.map Prod.fst).sum := by
        rw [QueueEstimator.packetQueued_queueSize] at ihbound
        exact ihbound
      have hsum : ((p :: rest).map Prod.fst).sum
          = p.1 + (rest.map Prod.fst).sum := by
        simp [List.map_cons, List.sum_cons]
      rw [hsum]
      linarith
    · rw [happly, ihlast, hlt]
      rfl

/-- Structure of a framed packet: the sender MAC is read back at byte offset
6, the frame is 14 bytes longer than its post-header contents, and dropping
the Ethernet header recovers those contents. -/
theorem ethFrame_fields (d s : MacAddress) (rest : List Byte) :
    ((ethHeaderBytes d s ++ rest).drop 6).take 6 = s.bytes
    ∧ (ethHeaderBytes d s ++ rest).length = ethernetHeaderSize + rest.length
    ∧ (ethHeaderBytes d s ++ rest).drop ethernetHeaderSize = rest := by
  obtain ⟨b0, b1, b2, b3, b4, b5⟩ := d
  obtain ⟨c0, c1, c2, c3, c4, c5⟩ := s
  refine ⟨rfl, ?_, rfl⟩
  simp [ethHeaderBytes, MacAddress.bytes, ethernetHeaderSize]
  omega

/-! Claim theorems. -/

/-- C1: exactly-once buffer return.  While `payload` is non-null, destroying
the Received envelope returns the packet buffer to the owning driver exactly
once; after `steal()` the payload is cleared and destroying the envelope
returns nothing, the caller owing exactly one later `release`; and a second
`release` for the same payload is a detectable misuse: the DpdkDriver release
assertion on `packetBufsUtilized` holds exactly when a buffer was still
outstanding, and with only this buffer outstanding a double release drives
the counter negative, failing the assertion. -/
theorem C1_exactly_once_buffer_return (r : Received) (b : Nat)
    (h : r.payload = some b) :
    r.destroyReleases = [b]
    ∧ r.steal.1 = some b
    ∧ r.steal.2.2.payload = none
    ∧ r.steal.2.2.destroyReleases = []
    ∧ (∀ c : Int, DpdkDriver.releaseAssertHolds c = true ↔ 1 ≤ c)
    ∧ DpdkDriver.releaseAssertHolds 1 = true
    ∧ DpdkDriver.release (DpdkDriver.release 1) < 0
    ∧ DpdkDriver.releaseAssertHolds (DpdkDriver.release 1) = false := by
  refine ⟨?_, ?_, rfl, rfl, ?_, by decide, by decide, by decide⟩
  · simp [Received.destroyReleases, h]
  · simp [Received.steal, h]
  · intro c
    simp only [DpdkDriver.releaseAssertHolds, DpdkDriver.release,
      decide_eq_true_eq]
    omega

/-- Witness for C1 at a concrete envelope owning buffer 7. -/
theorem C1_exactly_once_buffer_return_witness :
    (Received.mk none none 5 (some 7)).payload = some 7
    ∧ ((Received.mk none none 5 (some 7)).destroyReleases = [7]
      ∧ (Received.mk none none 5 (some 7)).steal.1 = some 7
      ∧ (Received.mk none none 5 (some 7)).steal.2.2.payload = none
      ∧ (Received.mk none none 5 (some 7)).steal.2.2.destroyReleases = []
      ∧ (∀ c : Int, DpdkDriver.releaseAssertHolds c = true ↔ 1 ≤ c)
      ∧ DpdkDriver.releaseAssertHolds 1 = true
      ∧ DpdkDriver.release (DpdkDriver.release 1) < 0
      ∧ DpdkDriver.releaseAssertHolds (DpdkDriver.release 1) = false) :=
  ⟨rfl, C1_exactly_once_buffer_return (Received.mk none none 5 (some 7)) 7 rfl⟩

/-- C10: move-constructing a Received transfers ownership without
duplication: the new envelope takes the source's sender, driver, len and
payload; the source's fields are reset (payload NULL, len 0, sender and
driver NULL); destroying the moved-from envelope returns nothing to the
driver; and together the two envelopes return exactly the buffers the
original owned, so each packet buffer is returned at most once. -/
theorem C10_move_transfers_ownership (r : Received) :
    r.moveFrom.1.sender = r.sender
    ∧ r.moveFrom.1.driver = r.driver
    ∧ r.moveFrom.1.len = r.len
    ∧ r.moveFrom.1.payload = r.payload
    ∧ r.moveFrom.2.payload = none
    ∧ r.moveFrom.2.len = 0
    ∧ r.moveFrom.2.sender = none
    ∧ r.moveFrom.2.driver = none
    ∧ r.moveFrom.2.destroyReleases = []
    ∧ r.moveFrom.1.destroyReleases ++ r.moveFrom.2.destroyReleases
        = r.destroyReleases := by
  refine ⟨rfl, rfl, rfl, rfl, rfl, rfl, rfl, rfl, rfl, ?_⟩
  simp [Received.moveFrom, Received.destroyReleases]

/-- C3 (code bug): the capped `maxPackets` local in
`DpdkDriver::receivePackets` is computed and never consulted again, so a call
with `maxPackets = 1` while two packets are pending from the NIC receive
burst appends both Received envelopes, exceeding the documented maximum;
with no pending packets the call appends nothing. -/
theorem C3_receivePackets_ignores_maxPackets :
    (DpdkDriver.receivePackets 1
        [Mbuf.mk (List.replicate 20 1), Mbuf.mk (List.replicate 20 2)]
        (DpdkState.mk [] [] (QueueEstimator.mk 0 0 0) 0) []).1.length = 2
    ∧ (DpdkDriver.receivePackets 1 []
        (DpdkState.mk [] [] (QueueEstimator.mk 0 0 0) 0) []).1 = [] := by
  constructor <;> rfl

/-- C5: the constructor-derived maximum transmit queue size equals
`bandwidthGbps * MAX_DRAIN_TIME / 8` bytes, except that when that value is
below twice the maximum packet size it is set to exactly twice the maximum
packet size (the floor dominates at low bandwidth). -/
theorem C5_maxTransmitQueueSize_formula (bandwidthGbps maxPacketSize : Nat) :
    (2 * maxPacketSize ≤ bandwidthGbps * Driver.MAX_DRAIN_TIME / 8 →
      DpdkDriver.computeMaxTransmitQueueSize bandwidthGbps maxPacketSize
        = bandwidthGbps * Driver.MAX_DRAIN_TIME / 8)
    ∧ (bandwidthGbps * Driver.MAX_DRAIN_TIME / 8 < 2 * maxPacketSize →
      DpdkDriver.computeMaxTransmitQueueSize bandwidthGbps maxPacketSize
        = 2 * maxPacketSize) := by
  constructor <;> intro h <;>
    simp only [DpdkDriver.computeMaxTransmitQueueSize, Driver.MAX_DRAIN_TIME]
      at h ⊢ <;>
    split <;> omega

/-- Witness for C5: at 40 Gbit/s with a 1386-byte maximum packet size the
derived limit is the formula value (10000 bytes), above the floor. -/
theorem C5_maxTransmitQueueSize_formula_witness :
    2 * 1386 ≤ 40 * Driver.MAX_DRAIN_TIME / 8
    ∧ DpdkDriver.computeMaxTransmitQueueSize 40 1386
        = 40 * Driver.MAX_DRAIN_TIME / 8 :=
  ⟨by decide, (C5_maxTransmitQueueSize_formula 40 1386).1 (by decide)⟩

/-- C6: `DpdkDriver::getTransmitQueueSpace(t)` equals `maxTransmitQueueSize`
minus the estimator's `getQueueSize(t)` (the decayed backlog floored at
zero); the result can be negative when more was already sent than the limit;
and the default `Driver::getTransmitQueueSpace` that a non-overriding driver
inherits returns the large positive constant 10000000 independent of the
time argument (unthrottled). -/
theorem C6_transmitQueueSpace (maxTransmitQueueSize : Nat)
    (e : QueueEstimator) (t : Int) :
    DpdkDriver.getTransmitQueueSpace maxTransmitQueueSize e t
      = (maxTransmitQueueSize : Int)
          - max 0 (e.queueSize - (t - e.lastTime) * e.bandwidth)
    ∧ DpdkDriver.getTransmitQueueSpace 0 (QueueEstimator.mk 0 5 0) 0 < 0
    ∧ (∀ t1 t2 : Int,
        Driver.defaultGetTransmitQueueSpace t1 = 10000000
        ∧ Driver.defaultGetTransmitQueueSpace t1
            = Driver.defaultGetTransmitQueueSpace t2) :=
  ⟨rfl, by decide, fun _ _ => ⟨rfl, rfl⟩⟩

/-- C8: `newAddress` fails with the NoSuchKeyException kind when the required
locator option is absent, and with the BadValueException kind when the option
is present but malformed; the two kinds are distinct constructors,
distinguishable by kind rather than message text. -/
theorem C8_newAddress_error_kinds (options : List (String × String))
    (key : String) (parseValue : String → Option Nat) (v : String) :
    (options.lookup key = none →
      Driver.newAddress options key parseValue
        = Except.error LocatorErrorKind.noSuchKey)
    ∧ (options.lookup key = some v → parseValue v = none →
      Driver.newAddress options key parseValue
        = Except.error LocatorErrorKind.badValue)
    ∧ LocatorErrorKind.noSuchKey ≠ LocatorErrorKind.badValue := by
  refine ⟨fun h => ?_, fun h hv => ?_, by decide⟩
  · simp [Driver.newAddress, h]
  · simp [Driver.newAddress, h, hv]

/-- Witness for C8 on the locator options `mac=xx`: the required key `gbs` is
absent (NoSuchKey kind), and with required key `mac` the non-numeric value
`xx` is malformed for a numeric parser (BadValue kind). -/
theorem C8_newAddress_error_kinds_witness :
    ([("mac", "xx")] : List (String × String)).lookup "gbs" = none
    ∧ Driver.newAddress [("mac", "xx")] "gbs"
        (fun s => if s = "40" then some 40 else none)
        = Except.error LocatorErrorKind.noSuchKey
    ∧ ([("mac", "xx")] : List (String × String)).lookup "mac" = some "xx"
    ∧ (fun s => if s = "40" then some 40 else none : String → Option Nat) "xx"
        = none
    ∧ Driver.newAddress [("mac", "xx")] "mac"
        (fun s => if s = "40" then some 40 else none)
        = Except.error LocatorErrorKind.badValue := by
  have h1 : ([("mac", "xx")] : List (String × String)).lookup "gbs" = none :=
    by decide
  have h2 : ([("mac", "xx")] : List (String × String)).lookup "mac"
      = some "xx" := by decide
  have h3 : (fun s => if s = "40" then some 40 else none : String → Option Nat)
      "xx" = none := by decide
  exact ⟨h1,
    (C8_newAddress_error_kinds [("mac", "xx")] "gbs"
      (fun s => if s = "40" then some 40 else none) "xx").1 h1,
    h2, h3,
    (C8_newAddress_error_kinds [("mac", "xx")] "mac"
      (fun s => if s = "40" then some 40 else none) "xx").2.1 h2 h3⟩

/-- Receiving with an Ethernet-framed packet as the only entry of the
loopback ring yields one Received holding the sender's MAC bytes and the
frame contents with the Ethernet header stripped. -/
theorem receive_fst_of_loopback (st : DpdkState) (d s : MacAddress)
    (rest : List Byte)
    (h : st.loopbackRing = [Mbuf.mk (ethHeaderBytes d s ++ rest)]) :
    (DpdkDriver.receivePackets 1 [] st []).1 = [(s.bytes, rest.length, rest)] := by
  obtain ⟨hs, hl, hd⟩ := ethFrame_fields d s rest
  simp only [ethernetHeaderSize] at hl hd
  simp [DpdkDriver.receivePackets, MAX_PACKETS_AT_ONCE, h, hs, hd, hl,
    ethernetHeaderSize]

/-- Receiving with an Ethernet-framed packet as the only entry of the NIC
receive burst yields one Received holding the sender's MAC bytes and the
frame contents with the Ethernet header stripped. -/
theorem receive_fst_of_nic (d s : MacAddress) (rest : List Byte)
    (e : QueueEstimator) (c : Int) :
    (DpdkDriver.receivePackets 1 [Mbuf.mk (ethHeaderBytes d s ++ rest)]
        (DpdkState.mk [] [] e c) []).1 = [(s.bytes, rest.length, rest)] := by
  obtain ⟨hs, hl, hd⟩ := ethFrame_fields d s rest
  simp only [ethernetHeaderSize] at hl hd
  simp [DpdkDriver.receivePackets, MAX_PACKETS_AT_ONCE, hs, hd, hl,
    ethernetHeaderSize]

/-- C2: send/receive round-trip content equality.  For any header and payload
with total length within `getMaxPacketSize()`: sending to the driver's own
MAC address succeeds, enqueues nothing on the hardware transmit ring, and a
subsequent `receivePackets` call returns the packet with byte-identical
contents equal to the caller's header bytes concatenated before the payload
bytes; sending to a peer enqueues on the hardware transmit ring (and not the
loopback ring) exactly the Ethernet framing followed by header and payload;
and a framed packet arriving from the NIC is received with the framing
stripped, again equal to header concatenated before payload. -/
theorem C2_send_receive_roundtrip (maxPayloadSize : Nat) (mac peer : MacAddress)
    (header : List Byte) (payload : List (List Byte)) (e : QueueEstimator)
    (now : Int)
    (_hbound : header.length + (payload.map List.length).sum
        ≤ DpdkDriver.getMaxPacketSize maxPayloadSize)
    (hpeer : peer ≠ mac) :
    (DpdkDriver.sendPacket maxPayloadSize mac mac header payload true true now
        (DpdkState.mk [] [] e 0)).sent = true
    ∧ (DpdkDriver.sendPacket maxPayloadSize mac mac header payload true true
        now (DpdkState.mk [] [] e 0)).st.txRing = []
    ∧ (DpdkDriver.receivePackets 1 []
        (DpdkDriver.sendPacket maxPayloadSize mac mac header payload true true
          now (DpdkState.mk [] [] e 0)).st []).1
      = [(mac.bytes, header.length + (payload.map List.length).sum,
          header ++ payload.flatten)]
    ∧ (DpdkDriver.sendPacket maxPayloadSize mac peer header payload true true
        now (DpdkState.mk [] [] e 0)).st.txRing
      = [Mbuf.mk (ethHeaderBytes peer mac ++ (header ++ payload.flatten))]
    ∧ (DpdkDriver.sendPacket maxPayloadSize mac peer header payload true true
        now (DpdkState.mk [] [] e 0)).st.loopbackRing = []
    ∧ (DpdkDriver.receivePackets 1
        [Mbuf.mk (ethHeaderBytes peer mac ++ (header ++ payload.flatten))]
        (DpdkState.mk [] [] e 0) []).1
      = [(mac.bytes, header.length + (payload.map List.length).sum,
          header ++ payload.flatten)] := by
  have hC : (DpdkDriver.sendPacket maxPayloadSize mac mac header payload true
      true now (DpdkState.mk [] [] e 0)).st.loopbackRing
      = [Mbuf.mk (ethHeaderBytes mac mac ++ (header ++ payload.flatten))] := by
    simp [DpdkDriver.sendPacket]
  refine ⟨by simp [DpdkDriver.sendPacket], by simp [DpdkDriver.sendPacket],
    ?_, by simp [DpdkDriver.sendPacket, hpeer],
    by simp [DpdkDriver.sendPacket, hpeer], ?_⟩
  · rw [receive_fst_of_loopback _ _ _ _ hC]
    simp [List.length_append, List.length_flatten]
  · rw [receive_fst_of_nic]
    simp [List.length_append, List.length_flatten]

/-- Witness for C2: header bytes `[10, 11]` and payload segments
`[[20], [30, 40]]` round-trip as the five bytes `[10, 11, 20, 30, 40]`. -/
theorem C2_send_receive_roundtrip_witness :
    ([10, 11] : List Byte).length
        + (([[20], [30, 40]] : List (List Byte)).map List.length).sum
      ≤ DpdkDriver.getMaxPacketSize 100
    ∧ MacAddress.mk 9 9 9 9 9 9 ≠ MacAddress.mk 1 2 3 4 5 6
    ∧ ((DpdkDriver.sendPacket 100 (MacAddress.mk 1 2 3 4 5 6)
          (MacAddress.mk 1 2 3 4 5 6) [10, 11] [[20], [30, 40]] true true 0
          (DpdkState.mk [] [] (QueueEstimator.mk 0 0 0) 0)).sent = true
      ∧ (DpdkDriver.sendPacket 100 (MacAddress.mk 1 2 3 4 5 6)
          (MacAddress.mk 1 2 3 4 5 6) [10, 11] [[20], [30, 40]] true true 0
          (DpdkState.mk [] [] (QueueEstimator.mk 0 0 0) 0)).st.txRing = []
      ∧ (DpdkDriver.receivePackets 1 []
          (DpdkDriver.sendPacket 100 (MacAddress.mk 1 2 3 4 5 6)
            (MacAddress.mk 1 2 3 4 5 6) [10, 11] [[20], [30, 40]] true true 0
            (DpdkState.mk [] [] (QueueEstimator.mk 0 0 0) 0)).st []).1
        = [([1, 2, 3, 4, 5, 6], 5, [10, 11, 20, 30, 40])]
      ∧ (DpdkDriver.sendPacket 100 (MacAddress.mk 1 2 3 4 5 6)
          (MacAddress.mk 9 9 9 9 9 9) [10, 11] [[20], [30, 40]] true true 0
          (DpdkState.mk [] [] (QueueEstimator.mk 0 0 0) 0)).st.txRing
        = [Mbuf.mk [9, 9, 9, 9, 9, 9, 1, 2, 3, 4, 5, 6, 128, 1,
            10, 11, 20, 30, 40]]
      ∧ (DpdkDriver.sendPacket 100 (MacAddress.mk 1 2 3 4 5 6)
          (MacAddress.mk 9 9 9 9 9 9) [10, 11] [[20], [30, 40]] true true 0
          (DpdkState.mk [] [] (QueueEstimator.mk 0 0 0) 0)).st.loopbackRing = []
      ∧ (DpdkDriver.receivePackets 1
          [Mbuf.mk [9, 9, 9, 9, 9, 9, 1, 2, 3, 4, 5, 6, 128, 1,
            10, 11, 20, 30, 40]]
          (DpdkState.mk [] [] (QueueEstimator.mk 0 0 0) 0) []).1
        = [([1, 2, 3, 4, 5, 6], 5, [10, 11, 20, 30, 40])]) :=
  ⟨by decide, by decide,
    C2_send_receive_roundtrip 100 (MacAddress.mk 1 2 3 4 5 6)
      (MacAddress.mk 9 9 9 9 9 9) [10, 11] [[20], [30, 40]]
      (QueueEstimator.mk 0 0 0) 0 (by decide) (by decide)⟩

set_option maxRecDepth 8000 in
/-- C4 counterexample: with the compile-time constant `MAX_PAYLOAD_SIZE`
instantiated at 1400 bytes, `getMaxPacketSize()` is 1386, yet a packet of
total length 1387 (which still passes the source's
`assert(totalLength <= MAX_PAYLOAD_SIZE)`) is sent with no log and no drop,
contradicting the claim that any total length above `getMaxPacketSize()` is
logged and not sent. -/
theorem C4_oversize_sent_counterexample :
    DpdkDriver.getMaxPacketSize 1400
      < (List.replicate 7 0).length
        + (([List.replicate 1380 0] : List (List Byte)).map List.length).sum
    ∧ (DpdkDriver.sendPacket 1400 (MacAddress.mk 1 1 1 1 1 1)
        (MacAddress.mk 2 2 2 2 2 2) (List.replicate 7 0)
        [List.replicate 1380 0] true true 0
        (DpdkState.mk [] [] (QueueEstimator.mk 0 0 0) 0)).sent = true
    ∧ (DpdkDriver.sendPacket 1400 (MacAddress.mk 1 1 1 1 1 1)
        (MacAddress.mk 2 2 2 2 2 2) (List.replicate 7 0)
        [List.replicate 1380 0] true true 0
        (DpdkState.mk [] [] (QueueEstimator.mk 0 0 0) 0)).logged = none
    ∧ (DpdkDriver.sendPacket 1400 (MacAddress.mk 1 1 1 1 1 1)
        (MacAddress.mk 2 2 2 2 2 2) (List.replicate 7 0)
        [List.replicate 1380 0] true true 0
        (DpdkState.mk [] [] (QueueEstimator.mk 0 0 0) 0)).assertOk = true := by
  refine ⟨by decide, rfl, rfl, by decide⟩

/-- C4 (amended): `sendPacket` is best-effort and never throws: when the
transmit descriptor cannot be allocated, or the mbuf append fails, it logs
and returns having sent nothing with the driver state unchanged; every call
either logs-and-drops with the state unchanged or sends, with no error
signal to the caller beyond the log; on the successful path it records
`packetQueued(totalLength, now)` with the estimator; oversize is policed
only by the assertion `totalLength <= MAX_PAYLOAD_SIZE` (the `assertOk`
flag), not by a logged drop against `getMaxPacketSize()`. -/
theorem C4_sendPacket_best_effort (maxPayloadSize : Nat)
    (localMac destMac : MacAddress) (header : List Byte)
    (payload : List (List Byte)) (allocOk appendOk : Bool) (now : Int)
    (st : DpdkState) :
    (allocOk = false →
      DpdkDriver.sendPacket maxPayloadSize localMac destMac header payload
          allocOk appendOk now st
        = SendOutcome.mk st
            (some "Failed to allocate a packet buffer; dropping packet") false
            (decide (header.length + (payload.map List.length).sum
              ≤ maxPayloadSize)))
    ∧ (allocOk = true → appendOk = false →
      DpdkDriver.sendPacket maxPayloadSize localMac destMac header payload
          allocOk appendOk now st
        = SendOutcome.mk st
            (some "rte_pktmbuf_append call failed; dropping packet") false
            (decide (header.length + (payload.map List.length).sum
              ≤ maxPayloadSize)))
    ∧ (allocOk = true → appendOk = true →
      (DpdkDriver.sendPacket maxPayloadSize localMac destMac header payload
          allocOk appendOk now st).logged = none
      ∧ (DpdkDriver.sendPacket maxPayloadSize localMac destMac header payload
          allocOk appendOk now st).sent = true
      ∧ (DpdkDriver.sendPacket maxPayloadSize localMac destMac header payload
          allocOk appendOk now st).st.queueEstimator
        = st.queueEstimator.packetQueued
            ((header.length + (payload.map List.length).sum : Nat) : Int) now)
    ∧ ((DpdkDriver.sendPacket maxPayloadSize localMac destMac header payload
          allocOk appendOk now st).st = st
        ∧ (DpdkDriver.sendPacket maxPayloadSize localMac destMac header payload
            allocOk appendOk now st).sent = false
        ∧ (DpdkDriver.sendPacket maxPayloadSize localMac destMac header payload
            allocOk appendOk now st).logged.isSome = true
      ∨ (DpdkDriver.sendPacket maxPayloadSize localMac destMac header payload
            allocOk appendOk now st).sent = true
        ∧ (DpdkDriver.sendPacket maxPayloadSize localMac destMac header payload
            allocOk appendOk now st).logged = none) := by
  refine ⟨fun ha => ?_, fun ha hp => ?_, fun ha hp => ?_, ?_⟩
  · subst ha; simp [DpdkDriver.sendPacket]
  · subst ha; subst hp; simp [DpdkDriver.sendPacket]
  · subst ha; subst hp
    by_cases hdm : destMac = localMac <;>
      simp [DpdkDriver.sendPacket, hdm]
  · cases allocOk with
    | false => exact Or.inl ⟨by simp [DpdkDriver.sendPacket],
        by simp [DpdkDriver.sendPacket], by simp [DpdkDriver.sendPacket]⟩
    | true =>
      cases appendOk with
      | false => exact Or.inl ⟨by simp [DpdkDriver.sendPacket],
          by simp [DpdkDriver.sendPacket], by simp [DpdkDriver.sendPacket]⟩
      | true => exact Or.inr ⟨by simp [DpdkDriver.sendPacket],
          by simp [DpdkDriver.sendPacket]⟩

/-- Witness for C4 on a one-byte header with no payload, exercising the
allocation-failure, append-failure and success paths. -/
theorem C4_sendPacket_best_effort_witness :
    DpdkDriver.sendPacket 20 (MacAddress.mk 1 1 1 1 1 1)
        (MacAddress.mk 2 2 2 2 2 2) [1] [] false true 0
        (DpdkState.mk [] [] (QueueEstimator.mk 0 0 0) 0)
      = SendOutcome.mk (DpdkState.mk [] [] (QueueEstimator.mk 0 0 0) 0)
          (some "Failed to allocate a packet buffer; dropping packet") false
          (decide (([1] : List Byte).length
            + (([] : List (List Byte)).map List.length).sum ≤ 20))
    ∧ DpdkDriver.sendPacket 20 (MacAddress.mk 1 1 1 1 1 1)
        (MacAddress.mk 2 2 2 2 2 2) [1] [] true false 0
        (DpdkState.mk [] [] (QueueEstimator.mk 0 0 0) 0)
      = SendOutcome.mk (DpdkState.mk [] [] (QueueEstimator.mk 0 0 0) 0)
          (some "rte_pktmbuf_append call failed; dropping packet") false
          (decide (([1] : List Byte).length
            + (([] : List (List Byte)).map List.length).sum ≤ 20))
    ∧ ((DpdkDriver.sendPacket 20 (MacAddress.mk 1 1 1 1 1 1)
          (MacAddress.mk 2 2 2 2 2 2) [1] [] true true 0
          (DpdkState.mk [] [] (QueueEstimator.mk 0 0 0) 0)).logged = none
      ∧ (DpdkDriver.sendPacket 20 (MacAddress.mk 1 1 1 1 1 1)
          (MacAddress.mk 2 2 2 2 2 2) [1] [] true true 0
          (DpdkState.mk [] [] (QueueEstimator.mk 0 0 0) 0)).sent = true
      ∧ (DpdkDriver.sendPacket 20 (MacAddress.mk 1 1 1 1 1 1)
          (MacAddress.mk 2 2 2 2 2 2) [1] [] true true 0
          (DpdkState.mk [] [] (QueueEstimator.mk 0 0 0) 0)).st.queueEstimator
        = (QueueEstimator.mk 0 0 0).packetQueued
            ((([1] : List Byte).length
              + (([] : List (List Byte)).map List.length).sum : Nat) : Int) 0) :=
  ⟨(C4_sendPacket_best_effort 20 (MacAddress.mk 1 1 1 1 1 1)
      (MacAddress.mk 2 2 2 2 2 2) [1] [] false true 0
      (DpdkState.mk [] [] (QueueEstimator.mk 0 0 0) 0)).1 rfl,
    (C4_sendPacket_best_effort 20 (MacAddress.mk 1 1 1 1 1 1)
      (MacAddress.mk 2 2 2 2 2 2) [1] [] true false 0
      (DpdkState.mk [] [] (QueueEstimator.mk 0 0 0) 0)).2.1 rfl rfl,
    (C4_sendPacket_best_effort 20 (MacAddress.mk 1 1 1 1 1 1)
      (MacAddress.mk 2 2 2 2 2 2) [1] [] true true 0
      (DpdkState.mk [] [] (QueueEstimator.mk 0 0 0) 0)).2.2.1 rfl rfl⟩

/-- C7: queue estimator monotonicity: `getQueueSize` is never negative; at a
given instant it does not decrease across a `packetQueued` call; with no
intervening `packetQueued` calls it does not increase as time advances
(decaying toward zero at the configured bandwidth); and starting from an
empty estimator, after any chronological trace of `packetQueued` calls it
never reports more bytes outstanding than were actually queued. -/
theorem C7_queueEstimator_monotone (e : QueueEstimator) (b now t1 t2 t : Int)
    (tr : List (Int × Int))
    (hbw : 0 ≤ e.bandwidth) (hb : 0 ≤ b)
    (h1 : e.lastTime ≤ t1) (h12 : t1 ≤ t2)
    (hq0 : e.queueSize = 0)
    (hchron : chronological e.lastTime tr)
    (hbytes : ∀ p ∈ tr, 0 ≤ p.1)
    (ht : lastQueuedTime e.lastTime tr ≤ t) :
    0 ≤ (e.getQueueSize now).1
    ∧ (e.getQueueSize now).1 ≤ ((e.packetQueued b now).getQueueSize now).1
    ∧ (e.getQueueSize t2).1 ≤ (e.getQueueSize t1).1
    ∧ ((e.applyTrace tr).getQueueSize t).1 ≤ (tr.map Prod.fst).sum := by
  refine ⟨QueueEstimator.getQueueSize_nonneg e now, ?_,
    QueueEstimator.getQueueSize_anti e t1 t2 hbw h1 h12, ?_⟩
  · rw [QueueEstimator.getQueueSize_fst (e.packetQueued b now) now,
      QueueEstimator.packetQueued_queueSize]
    have hlt : (e.packetQueued b now).lastTime = now := rfl
    have hbw2 : (e.packetQueued b now).bandwidth = e.bandwidth := rfl
    rw [hlt, hbw2]
    have hz : (now - now) * e.bandwidth = 0 := by
      rw [sub_self, zero_mul]
    rw [hz, sub_zero]
    exact le_max_of_le_right (by linarith)
  · obtain ⟨habw, haq, hab, halast⟩ :=
      QueueEstimator.applyTrace_bound tr e hbw (le_of_eq hq0.symm) hchron
        hbytes
    have hle : ((e.applyTrace tr).getQueueSize t).1 ≤ (e.applyTrace tr).queueSize :=
      QueueEstimator.getQueueSize_le_queueSize (e.applyTrace tr) t haq
        (by rw [habw]; exact hbw) (by rw [halast]; exact ht)
    have hfin : (e.applyTrace tr).queueSize ≤ (tr.map Prod.fst).sum := by
      rw [hq0] at hab
      linarith
    linarith

/-- Witness for C7 with bandwidth 2 from time 0, queueing 5 bytes then 3
bytes at times 1 and 2, then reading at time 6. -/
theorem C7_queueEstimator_monotone_witness :
    0 ≤ (QueueEstimator.mk 2 0 0).bandwidth
    ∧ 0 ≤ ((QueueEstimator.mk 2 0 0).getQueueSize 3).1
    ∧ ((QueueEstimator.mk 2 0 0).getQueueSize 3).1
        ≤ (((QueueEstimator.mk 2 0 0).packetQueued 5 3).getQueueSize 3).1
    ∧ ((QueueEstimator.mk 2 0 0).getQueueSize 4).1
        ≤ ((QueueEstimator.mk 2 0 0).getQueueSize 1).1
    ∧ (((QueueEstimator.mk 2 0 0).applyTrace [(5, 1), (3, 2)]).getQueueSize 6).1
        ≤ (([(5, 1), (3, 2)] : List (Int × Int)).map Prod.fst).sum := by
  have h := C7_queueEstimator_monotone (QueueEstimator.mk 2 0 0) 5 3 1 4 6
    [(5, 1), (3, 2)] (by decide) (by decide) (by decide) (by decide) rfl
    ⟨by decide, by decide, trivial⟩ (by decide) (by decide)
  exact ⟨by decide, h.1, h.2.1, h.2.2.1, h.2.2.2⟩

end RAMCloud
